import Mathlib

/-!
Verification development for the OpenVPN client manager
(`service.py`, `api/dependencies.py`, `api/routers/clients.py`).

The filesystem state touched by the orchestrator is modelled as an
association list from absolute path to file content (first binding wins,
`writeFile` replaces).  Python string helpers used by the source
(`str.splitlines`, `str.strip`, `str.rstrip`, `str.startswith`,
`"\n".join`) are modelled over `String`/`List Char`.  External
`easy-rsa` subprocess invocations are modelled as a function parameter
returning the updated filesystem together with success or a
`CalledProcessError`, mirroring `_run_easy_rsa`.
-/

namespace OvpnManager

set_option maxHeartbeats 1600000

/-- Python line-break characters recognised by `str.splitlines`. -/
def isLineBreakChar (c : Char) : Bool :=
  c = '\n' || c = '\r' || c = '\x0b' || c = '\x0c' ||
  c = '\x1c' || c = '\x1d' || c = '\x1e' || c = '\x85' ||
  c = '\u2028' || c = '\u2029'

/-- Whitespace stripped by Python `str.strip()` / `str.rstrip()`
(ASCII whitespace subset, which covers every string the source strips). -/
def isPySpace (c : Char) : Bool :=
  c = ' ' || c = '\t' || c = '\n' || c = '\r' || c = '\x0b' || c = '\x0c'

/-- Worker for `str.splitlines`: `acc` holds the current (reversed) line.
At a break character the current line is emitted; a `'\r'` immediately
followed by `'\n'` counts as a single break.  A trailing break does not
produce an extra empty line, matching Python. -/
def splitLinesGo : List Char → List Char → List (List Char)
  | [], acc => [acc.reverse]
  | '\r' :: '\n' :: rest, acc =>
    acc.reverse :: (if rest.isEmpty then [] else splitLinesGo rest [])
  | c :: cs, acc =>
    if isLineBreakChar c then
      acc.reverse :: (if cs.isEmpty then [] else splitLinesGo cs [])
    else splitLinesGo cs (c :: acc)

/-- Python `str.splitlines` on a character list (`"".splitlines() == []`). -/
def splitLinesL (l : List Char) : List (List Char) :=
  if l.isEmpty then [] else splitLinesGo l []

/-- Python `str.splitlines` on a `String`. -/
def pySplitlines (s : String) : List String :=
  (splitLinesL s.data).map String.mk

/-- Python `"\n".join(lines)`. -/
def joinNL : List String → String
  | [] => ""
  | [x] => x
  | x :: y :: ys => x ++ "\n" ++ joinNL (y :: ys)

/-- `joinNL` at the character-list level (used to reason about `joinNL`). -/
def joinNLL : List (List Char) → List Char
  | [] => []
  | [x] => x
  | x :: y :: ys => x ++ '\n' :: joinNLL (y :: ys)

/-- Python `str.rstrip()`. -/
def pyRstrip (s : String) : String :=
  String.mk ((s.data.reverse.dropWhile isPySpace).reverse)

/-- Python `str.strip()`. -/
def pyStrip (s : String) : String :=
  String.mk (((s.data.dropWhile isPySpace).reverse.dropWhile isPySpace).reverse)

/-- Python `s.startswith(pre)`. -/
def pyStartswith (s pre : String) : Bool :=
  pre.data.isPrefixOf s.data

/-- Filesystem model: association list of absolute path to file content.
The first binding for a path wins; absence of a binding means the file
does not exist. -/
def FS : Type := List (String × String)

instance : DecidableEq FS := by
  unfold FS
  infer_instance

/-- `Path.read_text()`: content of `p`, or `none` when the file is absent. -/
def readFile (fs : FS) (p : String) : Option String :=
  (List.find? (fun e => e.1 == p) fs).map (fun e => e.2)

/-- `Path.write_text(c)`: replace (or create) the binding for `p`. -/
def writeFile (fs : FS) (p c : String) : FS :=
  (p, c) :: List.filter (fun e => e.1 != p) fs

/-- `Path.unlink(missing_ok=True)`: drop the binding for `p` if present. -/
def unlinkFile (fs : FS) (p : String) : FS :=
  List.filter (fun e => e.1 != p) fs

/-- `Path.touch(exist_ok=True)`: create `p` empty when it is absent. -/
def touchFile (fs : FS) (p : String) : FS :=
  if (readFile fs p).isSome then fs else writeFile fs p ""

-- ======== PATHS (service.py lines 31-42) ================

def BASE_DIR : String := "/etc/openvpn/server"

def EASYRSA_PATH : String := BASE_DIR ++ "/easy-rsa"

def OUTPUT_DIR : String := BASE_DIR ++ "/clients"

def BLOCKLIST_PATH : String := BASE_DIR ++ "/blocked_clients.txt"

def CRL_PATH : String := BASE_DIR ++ "/crl.pem"

/-- `TLS_KEY.name` for the source constant `TLS_KEY = BASE_DIR / "tc.key"`. -/
def TLS_KEY_NAME : String := "tc.key"

def PKI_DIR : String := EASYRSA_PATH ++ "/pki"

/-- `EASYRSA_PATH / "pki" / "crl.pem"`, read by `_refresh_crl`. -/
def PKI_CRL_PATH : String := PKI_DIR ++ "/crl.pem"

/-- `pki / sub / f"{name}.crt"` as unlinked by `revoke_client`'s loop. -/
def pkiSubCrtPath (sub name : String) : String :=
  PKI_DIR ++ "/" ++ sub ++ "/" ++ name ++ ".crt"

/-- `pki / "issued" / f"{name}.crt"` (the issued client certificate). -/
def issuedCrtPath (name : String) : String :=
  PKI_DIR ++ "/issued/" ++ name ++ ".crt"

/-- `pki / "private" / f"{name}.key"` (the private key written by
`generate_client`). -/
def privateKeyPath (name : String) : String :=
  PKI_DIR ++ "/private/" ++ name ++ ".key"

/-- `OUTPUT_DIR / f"{name}.ovpn"` (the rendered client profile). -/
def ovpnPath (name : String) : String :=
  OUTPUT_DIR ++ "/" ++ name ++ ".ovpn"

/-- `TLS_TAG = "tls-crypt" if TLS_KEY.name.startswith("tc") else "tls-auth"`
(service.py line 41), parameterised by the configured TLS key file name. -/
def TLS_TAG (tlsKeyName : String) : String :=
  if pyStartswith tlsKeyName "tc" then "tls-crypt" else "tls-auth"

/-- `ADD_KEY_DIRECTION = TLS_TAG == "tls-auth"` (service.py line 42). -/
def ADD_KEY_DIRECTION (tlsKeyName : String) : Bool :=
  TLS_TAG tlsKeyName == "tls-auth"

/-- `embed` from `generate_client` (service.py lines 131-132):
wrap stripped content in an inline tag block. -/
def embedBlock (tag content : String) : String :=
  "<" ++ tag ++ ">\n" ++ pyStrip content ++ "\n</" ++ tag ++ ">\n"

/-- The profile assembly of `generate_client` (service.py lines 129-140)
as a pure function of the template, the credential file contents and the
configured TLS key name. -/
def renderProfile (template ca cert key tls tlsKeyName : String) : String :=
  pyRstrip template ++ "\n"
    ++ embedBlock "ca" ca
    ++ embedBlock "cert" cert
    ++ embedBlock "key" key
    ++ embedBlock (TLS_TAG tlsKeyName) tls
    ++ (if ADD_KEY_DIRECTION tlsKeyName then "key-direction 1\n" else "")

-- ======== subprocess / error model ================

/-- `subprocess.CalledProcessError` raised by `_run_easy_rsa` on a
non-zero exit code. -/
structure CalledProcessError where
  returncode : Int
deriving DecidableEq

/-- Exceptions the service operations can raise. -/
inductive SvcError where
  | calledProcess (e : CalledProcessError)
  | runtime (msg : String)
deriving DecidableEq

/-- An `easy-rsa` invocation: argument list and current filesystem in,
updated filesystem and success-or-`CalledProcessError` out.  This is the
shallow embedding of `_run_easy_rsa` as an external capability. -/
def EasyRsa : Type :=
  List String → FS → FS × Except CalledProcessError Unit

-- ======== service operations (service.py) ================

/-- `_refresh_crl` (service.py lines 106-111): raise when
`pki/crl.pem` is absent, otherwise copy it to `CRL_PATH`. -/
def refreshCrl (fs : FS) : FS × Except SvcError Unit :=
  match readFile fs PKI_CRL_PATH with
  | none => (fs, Except.error (SvcError.runtime "crl.pem not found after gen-crl"))
  | some c => (writeFile fs CRL_PATH c, Except.ok ())

/-- `suspend_client` (service.py lines 166-172): touch the block-list,
read its lines, log when `name` is already present, then write
`"\n".join(lines + [name]) + "\n"` back unconditionally. -/
def suspend_client (name : String) (fs : FS) : FS :=
  let fs0 := touchFile fs BLOCKLIST_PATH
  let lines := pySplitlines ((readFile fs0 BLOCKLIST_PATH).getD "")
  writeFile fs0 BLOCKLIST_PATH (joinNL (lines ++ [name]) ++ "\n")

/-- `unsuspend_client` (service.py lines 175-181): no-op when the
block-list is absent; otherwise drop every line equal to `name` and
write `"\n".join(lines) + ("\n" if lines else "")`. -/
def unsuspend_client (name : String) (fs : FS) : FS :=
  match readFile fs BLOCKLIST_PATH with
  | none => fs
  | some content =>
    let lines := (pySplitlines content).filter (fun line => line ≠ name)
    writeFile fs BLOCKLIST_PATH
      (joinNL lines ++ (if lines.isEmpty then "" else "\n"))

/-- `list_blocked` (service.py lines 184-193): the displayed sequence of
suspended clients — empty when the file is absent or blank, else the
file's lines. -/
def list_blocked (fs : FS) : List String :=
  match readFile fs BLOCKLIST_PATH with
  | none => []
  | some content =>
    if pyStrip content = "" then [] else pySplitlines content

/-- `revoke_client` (service.py lines 149-161): revoke at the backend,
regenerate and copy the CRL, then unlink `pki/{issued,private,reqs}/{name}.crt`
and the rendered profile, and unsuspend `name`.  Any failure propagates
immediately, leaving the remaining steps unexecuted. -/
def revoke_client (run : EasyRsa) (name : String) (fs : FS) :
    FS × Except SvcError Unit :=
  match run ["revoke", name] fs with
  | (fs1, Except.error e) => (fs1, Except.error (SvcError.calledProcess e))
  | (fs1, Except.ok _) =>
    match run ["gen-crl"] fs1 with
    | (fs2, Except.error e) => (fs2, Except.error (SvcError.calledProcess e))
    | (fs2, Except.ok _) =>
      match refreshCrl fs2 with
      | (fs3, Except.error e) => (fs3, Except.error e)
      | (fs3, Except.ok _) =>
        let fs4 := unlinkFile fs3 (pkiSubCrtPath "issued" name)
        let fs5 := unlinkFile fs4 (pkiSubCrtPath "private" name)
        let fs6 := unlinkFile fs5 (pkiSubCrtPath "reqs" name)
        let fs7 := unlinkFile fs6 (ovpnPath name)
        (unsuspend_client name fs7, Except.ok ())

-- ======== Delivery Surface (api/dependencies.py, api/routers/clients.py) ====

/-- A FastAPI `HTTPException` as raised by the API layer. -/
structure HttpError where
  status : Nat
  detail : String
deriving DecidableEq

/-- `get_api_key` (api/dependencies.py lines 21-33, identical in
api.py lines 28-39): skip authentication when no key is configured,
reject with HTTP 401 when the presented key differs from the configured
one, otherwise accept. -/
def get_api_key (configuredKey presented : String) : Except HttpError String :=
  if configuredKey = "" then Except.ok presented
  else if presented ≠ configuredKey then
    Except.error ⟨401, "Invalid API Key"⟩
  else Except.ok presented

/-- `str(e)` for the exceptions a service operation can raise, used by
the handlers' `except` blocks for the HTTP 500 detail. -/
def svcDetail : SvcError → String
  | SvcError.calledProcess e =>
    "Command returned non-zero exit status " ++ toString e.returncode
  | SvcError.runtime msg => msg

/-- A mutating endpoint of `api/routers/clients.py`: the router runs
`get_api_key` as a dependency before the handler body, and the handler
wraps the service call, translating a raised `SvcError` to HTTP 500. -/
def runProtected {α : Type} (configuredKey presented : String)
    (op : FS → FS × Except SvcError α) (fs : FS) :
    FS × Except HttpError α :=
  match get_api_key configuredKey presented with
  | Except.error e => (fs, Except.error e)
  | Except.ok _ =>
    match op fs with
    | (fs2, Except.ok v) => (fs2, Except.ok v)
    | (fs2, Except.error e) => (fs2, Except.error ⟨500, svcDetail e⟩)

-- ======== observables and auxiliary notions for the claims ========

/-- The local files claim C3 requires to stay untouched on a failed
revocation: block-list, server CRL, rendered profile, issued
certificate and private key of `name`. -/
def localView (name : String) (fs : FS) :
    Option String × Option String × Option String × Option String × Option String :=
  (readFile fs BLOCKLIST_PATH,
   readFile fs CRL_PATH,
   readFile fs (ovpnPath name),
   readFile fs (issuedCrtPath name),
   readFile fs (privateKeyPath name))

/-- The PKI backend contract assumed by the spec: an `easy-rsa`
invocation may update the backend's own records but never the
orchestrator-owned files of `localView` (block-list, server CRL,
profile) nor the issued certificate / private key artifacts. -/
def PreservesLocal (run : EasyRsa) (name : String) : Prop :=
  ∀ args fs, localView name (run args fs).1 = localView name fs

/-- A malformed client name in the sense of the spec's
`ValidationError`: empty, or containing a path separator or newline. -/
def isMalformedName (s : String) : Prop :=
  s = "" ∨ '/' ∈ s.data ∨ '\n' ∈ s.data

/-- A suspend/unsuspend call, for replaying sequences of operations. -/
inductive BlockOp where
  | suspend (name : String)
  | unsuspend (name : String)

/-- Replay a sequence of suspend/unsuspend calls through the service
code, starting from filesystem `fs`. -/
def applyOps (ops : List BlockOp) (fs : FS) : FS :=
  match ops with
  | [] => fs
  | BlockOp.suspend n :: rest => applyOps rest (suspend_client n fs)
  | BlockOp.unsuspend n :: rest => applyOps rest (unsuspend_client n fs)

/-- Modelled from the spec: the mathematical set semantics of the
block-list — suspend adds the name if absent (first-insertion order),
unsuspend removes it; `ListSuspended` equals the resulting sequence. -/
def specSetReplay (ops : List BlockOp) (s : List String) : List String :=
  match ops with
  | [] => s
  | BlockOp.suspend n :: rest =>
    specSetReplay rest (if n ∈ s then s else s ++ [n])
  | BlockOp.unsuspend n :: rest =>
    specSetReplay rest (s.filter (fun x => x ≠ n))

-- ======== concrete fixtures used by counterexamples and witnesses ====

/-- A backend whose every invocation fails with exit code 1 and leaves
the filesystem unchanged. -/
def failRun : EasyRsa := fun _ fs => (fs, Except.error ⟨1⟩)

/-- A backend whose every invocation succeeds; `gen-crl` regenerates
`pki/crl.pem`, other commands leave the filesystem unchanged. -/
def okRun : EasyRsa := fun args fs =>
  if args = ["gen-crl"] then (writeFile fs PKI_CRL_PATH "CRL-DATA", Except.ok ())
  else (fs, Except.ok ())

/-- A filesystem holding the artifacts `generate_client` leaves behind
for client `alice`. -/
def aliceFs : FS :=
  [(issuedCrtPath "alice", "CERT"),
   (privateKeyPath "alice", "KEY"),
   (ovpnPath "alice", "PROFILE")]

-- ======== helper lemmas ================

theorem strExt {a b : String} (h : a.data = b.data) : a = b := by
  rw [← show String.mk a.data = a from rfl, ← show String.mk b.data = b from rfl, h]

theorem readFile_writeFile (fs : FS) (p c : String) :
    readFile (writeFile fs p c) p = some c := by
  simp [readFile, writeFile, List.find?_cons]

theorem mapMkData (ls : List String) : (ls.map String.data).map String.mk = ls := by
  induction ls with
  | nil => rfl
  | cons a t ih => simp [ih]

theorem dataNL : ("\n" : String).data = ['\n'] := rfl

theorem data_joinNL (ls : List String) :
    (joinNL ls).data = joinNLL (ls.map String.data) := by
  induction ls with
  | nil => rfl
  | cons x ys ih =>
    cases ys with
    | nil => rfl
    | cons y zs =>
      show ((x ++ "\n" ++ joinNL (y :: zs)).data) = x.data ++ '\n' :: joinNLL ((y :: zs).map String.data)
      rw [String.data_append, String.data_append, dataNL, ← ih]
      simp

theorem joinNL_snoc (ls : List String) (n : String) :
    joinNL (ls ++ [n]) = (if ls.isEmpty then "" else joinNL ls ++ "\n") ++ n := by
  induction ls with
  | nil =>
    show joinNL [n] = "" ++ n
    apply strExt
    simp [joinNL, String.data_append]
  | cons x ys ih =>
    cases ys with
    | nil =>
      show joinNL [x, n] = (joinNL [x] ++ "\n") ++ n
      show x ++ "\n" ++ joinNL [n] = (x ++ "\n") ++ n
      rfl
    | cons y zs =>
      show x ++ "\n" ++ joinNL ((y :: zs) ++ [n]) = (joinNL (x :: y :: zs) ++ "\n") ++ n
      rw [ih]
      show x ++ "\n" ++ ((joinNL (y :: zs) ++ "\n") ++ n)
        = ((x ++ "\n" ++ joinNL (y :: zs)) ++ "\n") ++ n
      apply strExt
      simp [String.data_append, List.append_assoc]


theorem splitLinesGo_cons_break (c : Char) (cs acc : List Char)
    (hshape : ∀ rest, c = '\r' → cs = '\n' :: rest → False)
    (hc : isLineBreakChar c = true) :
    splitLinesGo (c :: cs) acc
      = acc.reverse :: (if cs.isEmpty then [] else splitLinesGo cs []) := by
  rw [splitLinesGo.eq_3 acc c cs hshape, if_pos hc]

theorem splitLinesGo_cons_nonbreak (c : Char) (cs acc : List Char)
    (hc : isLineBreakChar c = false) :
    splitLinesGo (c :: cs) acc = splitLinesGo cs (c :: acc) := by
  have hshape : ∀ rest, c = '\r' → cs = '\n' :: rest → False := by
    intro rest h1 _
    subst h1
    simp [isLineBreakChar] at hc
  rw [splitLinesGo.eq_3 acc c cs hshape, if_neg (by simp [hc])]

theorem splitLinesGo_append_nl (l : List Char)
    (hl : ∀ c ∈ l, isLineBreakChar c = false) (t acc : List Char) :
    splitLinesGo (l ++ '\n' :: t) acc = (acc.reverse ++ l) :: splitLinesL t := by
  induction l generalizing acc with
  | nil =>
    rw [List.nil_append,
      splitLinesGo_cons_break '\n' t acc (by intro rest h _; exact absurd h (by decide)) rfl]
    simp [splitLinesL]
  | cons a l ih =>
    have ha : isLineBreakChar a = false := hl a (by simp)
    rw [List.cons_append, splitLinesGo_cons_nonbreak a _ acc ha,
      ih (fun c hc => hl c (by simp [hc]))]
    simp

theorem splitLinesL_append_nl (l : List Char)
    (hl : ∀ c ∈ l, isLineBreakChar c = false) (t : List Char) :
    splitLinesL (l ++ '\n' :: t) = l :: splitLinesL t := by
  rw [splitLinesL, if_neg (by simp), splitLinesGo_append_nl l hl t []]
  simp

theorem splitLinesL_joinNLL (L : List (List Char)) (hne : L ≠ [])
    (hL : ∀ s ∈ L, ∀ c ∈ s, isLineBreakChar c = false) :
    splitLinesL (joinNLL L ++ ['\n']) = L := by
  induction L with
  | nil => exact absurd rfl hne
  | cons x ys ih =>
    have hx : ∀ c ∈ x, isLineBreakChar c = false := hL x (by simp)
    cases ys with
    | nil =>
      show splitLinesL (joinNLL [x] ++ ['\n']) = [x]
      rw [show joinNLL [x] = x from rfl,
        show x ++ ['\n'] = x ++ '\n' :: [] from rfl,
        splitLinesL_append_nl x hx []]
      rfl
    | cons y zs =>
      rw [show joinNLL (x :: y :: zs) = x ++ '\n' :: joinNLL (y :: zs) from rfl]
      rw [List.append_assoc, List.cons_append, splitLinesL_append_nl x hx _]
      rw [ih (by simp) (fun s hs => hL s (by simp [hs]))]

theorem splitLinesGo_breakfree : ∀ (l acc : List Char),
    (∀ c ∈ acc, isLineBreakChar c = false) →
    ∀ s ∈ splitLinesGo l acc, ∀ c ∈ s, isLineBreakChar c = false := by
  intro l acc
  induction l, acc using splitLinesGo.induct with
  | case1 acc =>
    intro hacc s hs c hc
    rw [splitLinesGo.eq_1] at hs
    simp at hs
    subst hs
    exact hacc c (by simpa using hc)
  | case2 rest acc ih =>
    intro hacc s hs c hc
    rw [splitLinesGo.eq_2] at hs
    rcases (List.mem_cons).mp hs with h | h
    · subst h
      exact hacc c (by simpa using hc)
    · rcases em (rest.isEmpty = true) with he | he
      · rw [if_pos he] at h
        simp at h
      · rw [if_neg he] at h
        exact ih (by simp) s h c hc
  | case3 c0 cs acc hshape hbr ih =>
    intro hacc s hs c hc
    rw [splitLinesGo_cons_break c0 cs acc (fun r h1 h2 => hshape r h1 h2) hbr] at hs
    rcases (List.mem_cons).mp hs with h | h
    · subst h
      exact hacc c (by simpa using hc)
    · rcases em (cs.isEmpty = true) with he | he
      · rw [if_pos he] at h
        simp at h
      · rw [if_neg he] at h
        exact ih (by simp) s h c hc
  | case4 c0 cs acc hshape hbr ih =>
    intro hacc s hs c hc
    have hb : isLineBreakChar c0 = false := by
      cases h : isLineBreakChar c0
      · rfl
      · exact absurd h hbr
    rw [splitLinesGo_cons_nonbreak c0 cs acc hb] at hs
    refine ih ?_ s hs c hc
    intro d hd
    rcases (List.mem_cons).mp hd with h | h
    · subst h
      exact hb
    · exact hacc d h

theorem splitLinesL_breakfree (l : List Char) :
    ∀ s ∈ splitLinesL l, ∀ c ∈ s, isLineBreakChar c = false := by
  rw [splitLinesL]
  rcases em (l.isEmpty = true) with he | he
  · rw [if_pos he]
    intro s hs
    simp at hs
  · rw [if_neg he]
    exact splitLinesGo_breakfree l [] (by simp)

theorem pySplitlines_breakfree (content s : String) (hs : s ∈ pySplitlines content) :
    ∀ c ∈ s.data, isLineBreakChar c = false := by
  rw [pySplitlines] at hs
  obtain ⟨l, hl, rfl⟩ := List.mem_map.mp hs
  exact splitLinesL_breakfree content.data l hl

theorem pySplitlines_join (lines : List String) (hne : lines ≠ [])
    (hbf : ∀ s ∈ lines, ∀ c ∈ s.data, isLineBreakChar c = false) :
    pySplitlines (joinNL lines ++ "\n") = lines := by
  rw [pySplitlines, String.data_append, dataNL, data_joinNL]
  rw [splitLinesL_joinNLL (lines.map String.data)
    (by simpa using hne)
    (by
      intro s hsmem
      obtain ⟨x, hx, rfl⟩ := List.mem_map.mp hsmem
      exact hbf x hx)]
  exact mapMkData lines

/-- Claim C10: `unsuspend_client` drops every block-list line equal to
the name (all occurrences), keeps the other lines in order, and writes a
trailing newline exactly when at least one line remains. -/
theorem unsuspend_client_line_semantics (fs : FS) (name content : String)
    (h : readFile fs BLOCKLIST_PATH = some content) :
    ∃ newContent,
      readFile (unsuspend_client name fs) BLOCKLIST_PATH = some newContent ∧
      pySplitlines newContent
        = (pySplitlines content).filter (fun line => line ≠ name) ∧
      ((∃ pre, newContent = pre ++ "\n") ↔
        (pySplitlines content).filter (fun line => line ≠ name) ≠ []) := by
  refine ⟨joinNL ((pySplitlines content).filter (fun line => line ≠ name))
      ++ (if ((pySplitlines content).filter (fun line => line ≠ name)).isEmpty
          then "" else "\n"), ?_, ?_, ?_⟩
  · simp only [unsuspend_client, h]
    exact readFile_writeFile _ _ _
  · rcases em ((pySplitlines content).filter (fun line => line ≠ name) = []) with he | he
    · rw [he]
      show pySplitlines (joinNL [] ++ "") = []
      rfl
    · rw [if_neg (by simpa using he)]
      refine pySplitlines_join _ he ?_
      intro s hsm
      exact pySplitlines_breakfree content s (List.mem_filter.mp hsm).1
  · rcases em ((pySplitlines content).filter (fun line => line ≠ name) = []) with he | he
    · rw [he]
      constructor
      · rintro ⟨pre, hpre⟩
        exfalso
        have := congrArg String.data hpre
        simp [String.data_append, dataNL, joinNL] at this
      · intro hc
        exact absurd rfl hc
    · rw [if_neg (by simpa using he)]
      exact ⟨fun _ => he, fun _ => ⟨_, rfl⟩⟩

theorem unsuspend_client_line_semantics_witness :
    ∃ newContent,
      readFile (unsuspend_client "a" [(BLOCKLIST_PATH, "a\nb\na")]) BLOCKLIST_PATH
        = some newContent ∧
      pySplitlines newContent
        = (pySplitlines "a\nb\na").filter (fun line => line ≠ "a") ∧
      ((∃ pre, newContent = pre ++ "\n") ↔
        (pySplitlines "a\nb\na").filter (fun line => line ≠ "a") ≠ []) :=
  unsuspend_client_line_semantics [(BLOCKLIST_PATH, "a\nb\na")] "a" "a\nb\na" rfl

/-- Claim C5 is false on the code: no operation validates the client
name.  Suspending the malformed (empty) name performs file I/O — it
creates and rewrites the block-list — instead of rejecting the request
before any I/O. -/
theorem suspend_client_empty_name_does_io :
    suspend_client "" [] = [(BLOCKLIST_PATH, "\n")] ∧
    readFile (suspend_client "" []) BLOCKLIST_PATH = some "\n" :=
  ⟨rfl, rfl⟩

/-- Claim C5, amended: operations perform no client-name validation; a
malformed name (empty, or containing a path separator or a newline) is
accepted by `suspend_client`, which writes it into the block-list file. -/
theorem suspend_client_accepts_malformed (name : String) (fs : FS)
    (h : isMalformedName name) :
    ∃ pre, readFile (suspend_client name fs) BLOCKLIST_PATH
      = some (pre ++ name ++ "\n") := by
  refine ⟨(if (pySplitlines ((readFile (touchFile fs BLOCKLIST_PATH) BLOCKLIST_PATH).getD "")).isEmpty
      then ""
      else joinNL (pySplitlines ((readFile (touchFile fs BLOCKLIST_PATH) BLOCKLIST_PATH).getD "") ) ++ "\n"), ?_⟩
  rw [show suspend_client name fs
      = writeFile (touchFile fs BLOCKLIST_PATH) BLOCKLIST_PATH
          (joinNL (pySplitlines ((readFile (touchFile fs BLOCKLIST_PATH) BLOCKLIST_PATH).getD "")
            ++ [name]) ++ "\n") from rfl,
    readFile_writeFile, joinNL_snoc]

theorem suspend_client_accepts_malformed_witness :
    ∃ pre, readFile (suspend_client "a/b" []) BLOCKLIST_PATH
      = some (pre ++ "a/b" ++ "\n") :=
  suspend_client_accepts_malformed "a/b" [] (Or.inr (Or.inl (by decide)))

-- ======== additional helper lemmas for the render claims ========

theorem dataTagClose : (">\n" : String).data = ['>', '\n'] := rfl

theorem dataKeyDir : ("key-direction 1\n" : String).data
    = ['k', 'e', 'y', '-', 'd', 'i', 'r', 'e', 'c', 't', 'i', 'o', 'n', ' ', '1', '\n'] := rfl

theorem rev_take_two (C : List Char) (x y : Char) :
    ((C ++ [x, y]).reverse).take 2 = [y, x] := by
  simp [List.reverse_append]

-- ======== claim theorems ================

/-- Claim C1 is false on the code: suspending `"a"` twice starting from
an empty filesystem leaves the block-list containing `"a"` twice, and a
suspend when the name is already present rewrites the file with a second
copy instead of being a no-op. -/
theorem suspend_client_not_idempotent :
    readFile (suspend_client "a" (suspend_client "a" [])) BLOCKLIST_PATH
      = some "a\na\n" ∧
    (pySplitlines "a\na\n").count "a" = 2 := by
  exact ⟨rfl, rfl⟩

/-- Claim C2 is false on the code: replaying `[suspend "a", suspend "a"]`
from an empty block-list makes `list_blocked` return `["a", "a"]`, while
the spec's set semantics yields `["a"]`. -/
theorem replay_breaks_set_semantics :
    list_blocked (applyOps [BlockOp.suspend "a", BlockOp.suspend "a"] []) = ["a", "a"] ∧
    specSetReplay [BlockOp.suspend "a", BlockOp.suspend "a"] [] = ["a"] ∧
    (["a", "a"] : List String) ≠ ["a"] := by
  refine ⟨rfl, rfl, by decide⟩

/-- Claim C4 is false on the code: after a fully successful
`revoke_client "alice"`, the issued certificate and the rendered profile
are deleted, but the private key `pki/private/alice.key` survives,
because the code unlinks `pki/private/alice.crt` instead. -/
theorem revoke_client_leaves_private_key :
    (revoke_client okRun "alice" aliceFs).2 = Except.ok () ∧
    readFile (revoke_client okRun "alice" aliceFs).1 (privateKeyPath "alice")
      = some "KEY" ∧
    readFile (revoke_client okRun "alice" aliceFs).1 (issuedCrtPath "alice") = none ∧
    readFile (revoke_client okRun "alice" aliceFs).1 (ovpnPath "alice") = none := by
  exact ⟨rfl, rfl, rfl, rfl⟩

/-- Claim C7: rendering template `"T\n"` with content `"X"` in every
block under the source's wrapped-trust configuration (`tc.key`)
produces exactly the expected profile, with no directional marker. -/
theorem render_round_trip :
    renderProfile "T\n" "X" "X" "X" "X" TLS_KEY_NAME =
      "T\n<ca>\nX\n</ca>\n<cert>\nX\n</cert>\n<key>\nX\n</key>\n<tls-crypt>\nX\n</tls-crypt>\n" :=
  rfl

/-- Claim C9 is false as stated: with no API key configured (the
default), a presented key that does not match the configured key is
accepted and the orchestrator operation runs anyway. -/
theorem api_auth_skipped_without_configured_key :
    runProtected "" "wrong-key"
        (fun fs => (suspend_client "a" fs, Except.ok ())) [] =
      ([(BLOCKLIST_PATH, "a\n")], Except.ok ()) ∧
    ("wrong-key" : String) ≠ "" := by
  exact ⟨rfl, by decide⟩

/-- Claim C9, amended: when a non-empty API key is configured, every
mutating handler rejects a mismatched presented key with HTTP 401 and
the orchestrator operation does not run (the filesystem is returned
unchanged, whatever the operation). -/
theorem api_auth_rejects_mismatch {α : Type} (configuredKey presented : String)
    (op : FS → FS × Except SvcError α) (fs : FS)
    (hcfg : configuredKey ≠ "") (hmiss : presented ≠ configuredKey) :
    runProtected configuredKey presented op fs =
      (fs, Except.error ⟨401, "Invalid API Key"⟩) := by
  simp [runProtected, get_api_key, hcfg, hmiss]

theorem api_auth_rejects_mismatch_witness :
    runProtected "secret" "bad"
        (fun fs => (suspend_client "a" fs, Except.ok ())) [] =
      (([] : FS), Except.error ⟨401, "Invalid API Key"⟩) :=
  api_auth_rejects_mismatch "secret" "bad" _ [] (by decide) (by decide)

/-- Claim C6: during `revoke_client`, when both backend steps succeed
but the regenerated `pki/crl.pem` is missing, the copy step fails hard
with the dedicated `RuntimeError`, leaving every later cleanup step
unexecuted. -/
theorem revoke_client_crl_missing_hard_error
    (run : EasyRsa) (name : String) (fs fs1 fs2 : FS)
    (h1 : run ["revoke", name] fs = (fs1, Except.ok ()))
    (h2 : run ["gen-crl"] fs1 = (fs2, Except.ok ()))
    (h3 : readFile fs2 PKI_CRL_PATH = none) :
    revoke_client run name fs =
      (fs2, Except.error (SvcError.runtime "crl.pem not found after gen-crl")) := by
  simp [revoke_client, h1, h2, refreshCrl, h3]

theorem revoke_client_crl_missing_hard_error_witness :
    revoke_client (fun _ fs => (fs, Except.ok ())) "alice" [] =
      (([] : FS), Except.error (SvcError.runtime "crl.pem not found after gen-crl")) :=
  revoke_client_crl_missing_hard_error (fun _ fs => (fs, Except.ok ())) "alice" [] [] []
    rfl rfl rfl

/-- Claim C3: if the backend's revoke step, or its CRL regeneration
step, fails, `revoke_client` aborts with an error and — assuming the
backend itself does not touch the orchestrator-owned files — the
block-list, server CRL, rendered profile and the client's certificate
and private key artifacts are all unchanged. -/
theorem revoke_client_atomic_on_backend_failure
    (run : EasyRsa) (name : String) (fs : FS)
    (hpres : PreservesLocal run name)
    (hfail : (∃ e, (run ["revoke", name] fs).2 = Except.error e) ∨
      ((run ["revoke", name] fs).2 = Except.ok () ∧
       ∃ e, (run ["gen-crl"] (run ["revoke", name] fs).1).2 = Except.error e)) :
    (∃ e, (revoke_client run name fs).2 = Except.error e) ∧
    localView name (revoke_client run name fs).1 = localView name fs := by
  rcases h1 : run ["revoke", name] fs with ⟨fs1, r1⟩
  have hv1 : localView name fs1 = localView name fs := by
    have := hpres ["revoke", name] fs
    rw [h1] at this
    exact this
  rcases hfail with ⟨e, he⟩ | ⟨hok, e, he⟩
  · rw [h1] at he
    simp at he
    subst he
    constructor
    · exact ⟨SvcError.calledProcess e, by simp [revoke_client, h1]⟩
    · simpa [revoke_client, h1] using hv1
  · rw [h1] at hok
    simp at hok
    subst hok
    rw [h1] at he
    simp only at he
    rcases h2 : run ["gen-crl"] fs1 with ⟨fs2, r2⟩
    have hv2 : localView name fs2 = localView name fs1 := by
      have := hpres ["gen-crl"] fs1
      rw [h2] at this
      exact this
    rw [h2] at he
    simp only at he
    subst he
    constructor
    · exact ⟨SvcError.calledProcess e, by simp [revoke_client, h1, h2]⟩
    · rw [show (revoke_client run name fs).1 = fs2 by simp [revoke_client, h1, h2]]
      rw [hv2, hv1]

theorem revoke_client_atomic_witness :
    (∃ e, (revoke_client failRun "alice" aliceFs).2 = Except.error e) ∧
    localView "alice" (revoke_client failRun "alice" aliceFs).1 =
      localView "alice" aliceFs :=
  revoke_client_atomic_on_backend_failure failRun "alice" aliceFs
    (fun _ _ => rfl) (Or.inl ⟨⟨1⟩, rfl⟩)

/-- Claim C8: the rendered profile ends with the appended line
`"key-direction 1\n"` exactly when the configured trust mode is the
legacy `tls-auth` mode; under `tls-crypt` the renderer never appends it
(the output ends with the closing trust tag instead). -/
theorem render_key_direction_iff (template ca cert key tls tlsKeyName : String) :
    (∃ pre, renderProfile template ca cert key tls tlsKeyName
        = pre ++ "key-direction 1\n")
      ↔ TLS_TAG tlsKeyName = "tls-auth" := by
  rcases em (pyStartswith tlsKeyName "tc" = true) with h | h
  · have htag : TLS_TAG tlsKeyName = "tls-crypt" := by rw [TLS_TAG, if_pos h]
    have hadd : ADD_KEY_DIRECTION tlsKeyName = false := by
      rw [ADD_KEY_DIRECTION, htag]
      rfl
    rw [htag]
    constructor
    · rintro ⟨pre, hpre⟩
      exfalso
      have hr : renderProfile template ca cert key tls tlsKeyName
          = (pyRstrip template ++ "\n" ++ embedBlock "ca" ca ++ embedBlock "cert" cert
              ++ embedBlock "key" key
              ++ ("<" ++ "tls-crypt" ++ ">\n" ++ pyStrip tls ++ "\n</" ++ "tls-crypt")) ++ ">\n" := by
        apply strExt
        simp [renderProfile, embedBlock, hadd, htag, String.data_append, List.append_assoc]
      rw [hr] at hpre
      have h2 := congrArg (fun s : String => (s.data.reverse).take 2) hpre
      simp only [String.data_append, dataTagClose, dataKeyDir] at h2
      rw [rev_take_two] at h2
      rw [show pre.data
            ++ (['k', 'e', 'y', '-', 'd', 'i', 'r', 'e', 'c', 't', 'i', 'o', 'n', ' ', '1', '\n'] : List Char)
          = (pre.data ++ ['k', 'e', 'y', '-', 'd', 'i', 'r', 'e', 'c', 't', 'i', 'o', 'n', ' '])
            ++ ['1', '\n'] from by simp [List.append_assoc]] at h2
      rw [rev_take_two] at h2
      exact absurd h2 (by decide)
    · intro hfalse
      exact absurd hfalse (by decide)
  · have htag : TLS_TAG tlsKeyName = "tls-auth" := by rw [TLS_TAG, if_neg h]
    have hadd : ADD_KEY_DIRECTION tlsKeyName = true := by
      rw [ADD_KEY_DIRECTION, htag]
      rfl
    rw [htag]
    refine ⟨fun _ => rfl, fun _ => ?_⟩
    refine ⟨pyRstrip template ++ "\n" ++ embedBlock "ca" ca ++ embedBlock "cert" cert
      ++ embedBlock "key" key ++ embedBlock "tls-auth" tls, ?_⟩
    apply strExt
    simp [renderProfile, embedBlock, hadd, htag, String.data_append, List.append_assoc]

end OvpnManager
